import Mathlib

/-!
Verification of the proxy-node latency pipeline.

Shallow embedding of `src/speedtest/karing_latency_test.py`
(`KaringLatencyTester.test_node_latency`, `test_nodes_batch` and the
filter/sort post-processing of `main`), of the regex-based node-link
extraction of `src/v2rayse_collector.py` (`collect_nodes`, lines 440-457),
and of the retrying HTTP fetcher specified in §4.3 of the design document
(its implementation `src/core/handlers/request_handler.py` is not among
the sources; only its test suite is, so that component is modelled from
the spec).

External library calls (aiohttp requests, `base64.b64decode`,
`json.loads`, `urllib.parse.urlparse`) are modelled as an explicit
environment (`Env`) and as per-attempt network outcomes (`Attempt`), so
every repository function becomes a total, executable Lean function of
the program input and that environment.
-/

namespace Karing

/-- Python's default ASCII whitespace characters (the characters stripped
by `str.strip()` and matched by `\s` that occur in the inputs considered
here; the additional Unicode whitespace accepted by Python is not needed
for any descriptor and is left out of the model). -/
def pyIsSpace (c : Char) : Bool :=
  c = ' ' ∨ c = '\t' ∨ c = '\n' ∨ c = '\x0d' ∨ c = '\x0b' ∨ c = '\x0c'

/-- `p.isPrefixOf s` on the underlying character lists: model of Python's
`str.startswith`. -/
def pyStartsWith (s p : String) : Bool :=
  p.toList.isPrefixOf s.toList

/-- Digit run of a Python integer literal after the first digit:
an optional underscore may separate two digits (`1_0`), but underscores
may not lead, trail or repeat. `acc` is the value of the digits read so
far. -/
def pyDigitsRest : List Char → Nat → Option Nat
  | [], acc => some acc
  | '_' :: c :: cs, acc =>
    if c.isDigit then pyDigitsRest cs (acc * 10 + (c.toNat - 48)) else none
  | '_' :: [], _ => none
  | c :: cs, acc =>
    if c.isDigit then pyDigitsRest cs (acc * 10 + (c.toNat - 48)) else none

/-- Value of a nonempty digit sequence (with Python's underscore rule);
`none` when the characters are not such a sequence. -/
def pyDigits : List Char → Option Nat
  | [] => none
  | c :: cs => if c.isDigit then pyDigitsRest cs (c.toNat - 48) else none

/-- Model of Python's `int(s)`: strip surrounding whitespace, allow one
optional sign, then require a nonempty digit sequence; any other input
raises `ValueError`, whose `str()` is the returned error message. -/
def pyInt (s : String) : Except String Int :=
  let t := ((s.toList.dropWhile pyIsSpace).reverse.dropWhile pyIsSpace).reverse
  let fail : Except String Int :=
    .error ("invalid literal for int() with base 10: " ++ s)
  match t with
  | [] => fail
  | '-' :: rest =>
    match pyDigits rest with
    | some n => .ok (-(n : Int))
    | none => fail
  | '+' :: rest =>
    match pyDigits rest with
    | some n => .ok (n : Int)
    | none => fail
  | _ =>
    match pyDigits t with
    | some n => .ok (n : Int)
    | none => fail

/-- First occurrence of the separator `sep` in `cs`: the characters
before it and the characters after it, or `none` when `sep` does not
occur. -/
def splitFirst (sep : List Char) : List Char → Option (List Char × List Char)
  | [] => none
  | c :: rest =>
    if sep.isPrefixOf (c :: rest) then
      some ([], (c :: rest).drop sep.length)
    else
      match splitFirst sep rest with
      | none => none
      | some (pre, post) => some (c :: pre, post)

/-- Split on every occurrence of the separator, left to right. The fuel
makes the recursion structural; for a nonempty separator each split
consumes at least one character, so fuel equal to the text length never
runs out. -/
def pySplitGo (sep : List Char) : Nat → List Char → List (List Char)
  | 0, cs => [cs]
  | fuel + 1, cs =>
    match splitFirst sep cs with
    | none => [cs]
    | some (pre, post) => pre :: pySplitGo sep fuel post

/-- Model of Python's `s.split(sep)` for a nonempty separator. -/
def pySplit (s sep : String) : List String :=
  (pySplitGo sep.toList s.toList.length s.toList).map fun l => String.mk l

/-- Model of Python's slice `s[n:]` (slicing counts characters). -/
def pySlice (s : String) (n : Nat) : String :=
  String.mk (s.toList.drop n)

/-- Python's `x or d` for an optional integer `x`: `None` and `0` are
falsy, so both fall back to `d` (`parsed.port or 443`). -/
def pyOr : Option Int → Int → Int
  | none, d => d
  | some 0, d => d
  | some p, _ => p

/-- Decoded form of a vmess payload: the JSON object
`json.loads(base64.b64decode(...))`, of which the probe reads the keys
`add` and `port` (either may be absent; `dict.get` supplies defaults). -/
structure VmessData where
  add : Option String
  port : Option Int
deriving Repr, DecidableEq

/-- The external library calls made while parsing one descriptor.
Each can fail: the model returns the message of the Python exception. -/
structure Env where
  /-- `json.loads(base64.b64decode(payload).decode("utf-8"))` for a
  vmess payload. -/
  vmessDecode : String → Except String VmessData
  /-- `urllib.parse.urlparse(uri)` followed by reading `.hostname` and
  `.port` (the `.port` accessor raises on an invalid port). -/
  urlparse : String → Except String (Option String × Option Int)
  /-- `base64.b64decode(userinfo).decode("utf-8")` for an ss userinfo. -/
  b64decode : String → Except String String

/-- Outcome of one probe GET request: either the request raised, or it
returned a response with an HTTP status, taking `elapsedMs` wall-clock
milliseconds (`int((time.time() - start_time) * 1000)`). -/
inductive Attempt where
  | exn (msg : String)
  | resp (status : Nat) (elapsedMs : Nat)
deriving Repr, DecidableEq

/-- The result dictionary built by `test_node_latency`. A `none` field
models an absent key (the success dictionary carries no `error` key, the
failure dictionaries carry no `protocol`/`server`/`port` keys). Latency
is a rational: Python's `sum(latencies) / len(latencies)` is true
division. -/
structure ProbeResult where
  config : String
  latency : ℚ
  protocol : Option String := none
  server : Option String := none
  port : Option Int := none
  error : Option String := none
deriving Repr, DecidableEq

/-- Outcome of the descriptor-parsing phase of `test_node_latency`
(lines 39-71): a parsed `(server, port, protocol)` triple, the
short-circuit for unsupported schemes, or a raised exception message. -/
inductive ParseOutcome where
  | parsed (server : Option String) (port : Int) (protocol : String)
  | unsupported
  | raised (msg : String)
deriving Repr, DecidableEq

/-- The parsing phase of `test_node_latency`: vmess is base64+JSON
decoded (`add`/`port` with defaults `""`/`443`), vless goes through
`urlparse` (`hostname`, `port or 443`), ss is decoded ad hoc by string
splitting (base64 of the userinfo before `@`, host between `@` and `:`,
port = `int` of the text after the last `:`), and every other scheme is
unsupported. -/
def parseNode (env : Env) (node_config : String) : ParseOutcome :=
  if pyStartsWith node_config "vmess://" then
    match env.vmessDecode (pySlice node_config 8) with
    | .ok d => .parsed (some (d.add.getD "")) (d.port.getD 443) "vmess"
    | .error e => .raised e
  else if pyStartsWith node_config "vless://" then
    match env.urlparse node_config with
    | .ok (host, port) => .parsed host (pyOr port 443) "vless"
    | .error e => .raised e
  else if pyStartsWith node_config "ss://" then
    match env.b64decode ((pySplit (pySlice node_config 5) "@").headD "") with
    | .error e => .raised e
    | .ok _ss_data =>
      match (pySplit node_config "@").get? 1 with
      | none => .raised "list index out of range"
      | some afterAt =>
        match pyInt (((pySplit node_config ":").getLast?).getD "") with
        | .error e => .raised e
        | .ok port => .parsed (some ((pySplit afterAt ":").headD "")) port "ss"
  else .unsupported

/-- The Karing probe endpoints (`self.test_urls`); only the first two
are requested. -/
def testUrls : List String :=
  [ "https://www.google.com/generate_204"
  , "https://www.cloudflare.com/"
  , "https://www.apple.com/"
  , "https://www.microsoft.com/"
  , "https://www.baidu.com/"
  , "https://www.bing.com/" ]

/-- The latencies collected by the probe loop over `test_urls[:2]`: the
elapsed milliseconds of attempt `i` are recorded only when the request
did not raise and its status is 200 or 204; every other attempt is
skipped. -/
def successLatencies (outcomes : Nat → Attempt) : List Nat :=
  (List.range (testUrls.take 2).length).filterMap fun i =>
    match outcomes i with
    | .exn _ => none
    | .resp status ms =>
      if status = 200 ∨ status = 204 then some ms else none

/-- `avg_latency = sum(latencies) / len(latencies)` (line 94): the
arithmetic mean, under true division, of the collected latencies. -/
def meanLatency (latencies : List Nat) : ℚ :=
  (latencies.sum : ℚ) / (latencies.length : ℚ)

/-- `KaringLatencyTester.test_node_latency`: parse the descriptor (an
exception becomes a `latency = -1` result carrying the message, an
unsupported scheme a `latency = -1` result with error
`"Unsupported protocol"`), then probe; with at least one successful
attempt the latency of the result is the mean of the successful attempt
latencies, otherwise `latency = -1` with error `"Connection failed"`. -/
def testNodeLatency (env : Env) (node_config : String)
    (outcomes : Nat → Attempt) : ProbeResult :=
  match parseNode env node_config with
  | .unsupported =>
    { config := node_config, latency := -1, error := some "Unsupported protocol" }
  | .raised e =>
    { config := node_config, latency := -1, error := some e }
  | .parsed server port protocol =>
    let latencies := successLatencies outcomes
    if latencies.isEmpty then
      { config := node_config, latency := -1, error := some "Connection failed" }
    else
      { config := node_config
      , latency := meanLatency latencies
      , protocol := some protocol
      , server := server
      , port := some port }

/-- `test_nodes_batch`, one node at a time: node `i` is probed with its
own network outcomes `outcomes i`. (The Python version runs the same
per-node computation under an `asyncio.Semaphore` and appends results as
tasks complete; each task reads only its own descriptor, which this
sequential model makes explicit.) -/
def testNodesBatchGo (env : Env) (outcomes : Nat → Nat → Attempt) :
    List String → Nat → List ProbeResult
  | [], _ => []
  | c :: rest, i =>
    testNodeLatency env c (outcomes i) :: testNodesBatchGo env outcomes rest (i + 1)

/-- `KaringLatencyTester.test_nodes_batch`. -/
def testNodesBatch (env : Env) (configs : List String)
    (outcomes : Nat → Nat → Attempt) : List ProbeResult :=
  testNodesBatchGo env outcomes configs 0

/-- The validity filter of `main` (lines 151-156): keep a result iff
`0 < latency < 3000`. -/
def filterValid (results : List ProbeResult) : List ProbeResult :=
  results.filter fun r => decide (0 < r.latency) && decide (r.latency < 3000)

/-- The ascending latency sort of `main` (line 159);
`list.sort` in Python is a stable merge sort. -/
def sortByLatency (results : List ProbeResult) : List ProbeResult :=
  results.mergeSort fun a b => decide (a.latency ≤ b.latency)

/-- The post-processing of `main` (lines 151-166): filter, sort
ascending by latency, and write each surviving result's `config`. -/
def mainOutput (results : List ProbeResult) : List String :=
  (sortByLatency (filterValid results)).map (·.config)

end Karing

namespace V2RaySE

/-- A character the node-link patterns of `collect_nodes` may contain:
the regexes are `scheme://[^\s"<]+`, so everything except whitespace,
`"` and `<`. -/
def isLinkChar (c : Char) : Bool :=
  !(Karing.pyIsSpace c || c = '"' || c = '<')

/-- One scan step of `re.findall`, with explicit fuel so that the
recursion is structural (each step consumes at least one character, so
fuel equal to the text length never runs out): at the current position,
if the prefix matches and at least one link character follows, emit the
prefix together with the greedy run of link characters and resume after
the match (matches do not overlap), otherwise advance one character. -/
def findallGo (pat : List Char) : Nat → List Char → List (List Char)
  | 0, _ => []
  | _, [] => []
  | fuel + 1, c :: rest =>
    if pat.isPrefixOf (c :: rest) then
      match ((c :: rest).drop pat.length).takeWhile isLinkChar with
      | [] => findallGo pat fuel rest
      | r :: rs =>
        (pat ++ r :: rs) ::
          findallGo pat fuel ((c :: rest).drop (pat.length + (r :: rs).length))
    else findallGo pat fuel rest

/-- Model of Python's `re.findall(pat + r'[^\s"<]+', text)` on character
lists, for a literal prefix `pat`: left-to-right, non-overlapping,
greedy matches, in source order. -/
def findall (pat : List Char) (cs : List Char) : List (List Char) :=
  findallGo pat cs.length cs

/-- The six scheme prefixes of `node_patterns` (lines 440-447), in the
order the collector scans them. -/
def nodePatternPrefixes : List String :=
  ["vmess://", "vless://", "trojan://", "ss://", "ssr://", "hysteria://"]

/-- The extraction loop of `collect_nodes` (lines 449-452): run
`re.findall` once per scheme pattern and concatenate the match lists in
pattern order (`all_links.extend(links)`). -/
def extractNodeLinks (text : String) : List String :=
  (nodePatternPrefixes.map fun p =>
    (findall p.toList text.toList).map fun m => String.mk m).flatten

end V2RaySE

namespace Fetcher

/-- Outcome of one transport-level request attempt. -/
inductive TransportResult where
  | failure (msg : String)
  | success (status : Nat) (body : String)
deriving Repr, DecidableEq

/-- Observable trace of one `fetch` call: how many attempts were issued,
the inter-attempt delays (in seconds) in order, and either the response
of the successful attempt or the terminal `NetworkError` message. -/
structure FetchTrace where
  attempts : Nat
  delays : List Nat
  outcome : Except String (Nat × String)
deriving Repr

/-- Modelled from the spec: the retry loop of the Resilient Fetcher
(§4.3; its implementation `src/core/handlers/request_handler.py` is not
among the sources, only `tests/handlers/test_request_handler.py` is).
Attempt `k` issues the request; a success returns immediately, a failure
with attempts remaining sleeps `delay k` seconds (the spec requires a
fixed or backoff delay of at least one second) and retries, and a
failure on the last attempt surfaces a single `NetworkError`. -/
def fetchGo (transport : Nat → TransportResult) (delay : Nat → Nat) :
    Nat → Nat → FetchTrace
  | _, 0 => { attempts := 0, delays := [], outcome := .error "NetworkError" }
  | k, remaining + 1 =>
    match transport k with
    | .success status body =>
      { attempts := 1, delays := [], outcome := .ok (status, body) }
    | .failure msg =>
      match remaining with
      | 0 => { attempts := 1, delays := [], outcome := .error ("NetworkError: " ++ msg) }
      | r + 1 =>
        let rest := fetchGo transport delay (k + 1) (r + 1)
        { attempts := rest.attempts + 1
        , delays := delay k :: rest.delays
        , outcome := rest.outcome }

/-- Modelled from the spec: `fetch` with a configured maximum attempt
count `retryCount`, starting at attempt 0. -/
def fetchGet (retryCount : Nat) (delay : Nat → Nat)
    (transport : Nat → TransportResult) : FetchTrace :=
  fetchGo transport delay 0 retryCount

end Fetcher

namespace Karing

/-- A concrete environment for evaluating the embedding: vmess payloads
fail to decode (as for a non-base64 payload), `urlparse` resolves every
URI to host `h.example` port 443, and ss userinfo base64-decodes to
itself. -/
def sampleEnv : Env where
  vmessDecode := fun _ => .error "Invalid base64-encoded string"
  urlparse := fun _ => .ok (some "h.example", some 443)
  b64decode := fun s => .ok s

/-- Network outcomes in which attempt 0 answers 200 after 100 ms and
attempt 1 answers 204 after 105 ms. -/
def unevenOutcomes : Nat → Attempt :=
  fun i => if i = 0 then .resp 200 100 else .resp 204 105

end Karing

/-! Theorems. -/

namespace Karing

/-- The mean of a list of natural-number latencies is nonnegative. -/
theorem meanLatency_nonneg (l : List Nat) : 0 ≤ meanLatency l :=
  div_nonneg (by positivity) (by positivity)

/-- The mean of a list of natural-number latencies is never `-1`. -/
theorem meanLatency_ne_neg_one (l : List Nat) : meanLatency l ≠ -1 := by
  intro h
  have h0 := meanLatency_nonneg l
  rw [h] at h0
  norm_num at h0

/-- Evaluation of `test_node_latency` when parsing raised. -/
theorem testNodeLatency_raised (env : Env) (s : String) (outcomes : Nat → Attempt)
    (e : String) (hp : parseNode env s = .raised e) :
    testNodeLatency env s outcomes = { config := s, latency := -1, error := some e } := by
  simp only [testNodeLatency, hp]

/-- Evaluation of `test_node_latency` on an unsupported scheme. -/
theorem testNodeLatency_unsupported (env : Env) (s : String) (outcomes : Nat → Attempt)
    (hp : parseNode env s = .unsupported) :
    testNodeLatency env s outcomes
      = { config := s, latency := -1, error := some "Unsupported protocol" } := by
  simp only [testNodeLatency, hp]

/-- Evaluation of `test_node_latency` when parsing succeeded but no
probe attempt did. -/
theorem testNodeLatency_noSuccess (env : Env) (s : String) (outcomes : Nat → Attempt)
    (server : Option String) (port : Int) (protocol : String)
    (hp : parseNode env s = .parsed server port protocol)
    (hl : successLatencies outcomes = []) :
    testNodeLatency env s outcomes
      = { config := s, latency := -1, error := some "Connection failed" } := by
  simp only [testNodeLatency, hp, hl, List.isEmpty_nil, if_true]

/-- Evaluation of `test_node_latency` when parsing succeeded and at
least one probe attempt did. -/
theorem testNodeLatency_success (env : Env) (s : String) (outcomes : Nat → Attempt)
    (server : Option String) (port : Int) (protocol : String) (a : Nat) (t : List Nat)
    (hp : parseNode env s = .parsed server port protocol)
    (hl : successLatencies outcomes = a :: t) :
    testNodeLatency env s outcomes
      = { config := s, latency := meanLatency (a :: t)
        , protocol := some protocol, server := server, port := some port } := by
  simp only [testNodeLatency, hp, hl, List.isEmpty_cons, Bool.false_eq_true, if_false]

/-- C1 (amended: the code writes the error string capitalized, as
`"Connection failed"`). For every supported node that reaches the probe
loop, the collected latencies are exactly those of the attempts whose
response status is 200 or 204; with at least one successful attempt the
latency of the result is the arithmetic mean of the successful attempt
latencies, and with none the result carries latency `-1` and error
`"Connection failed"`. -/
theorem probe_mean_latency (env : Env) (s : String) (outcomes : Nat → Attempt)
    (server : Option String) (port : Int) (protocol : String)
    (hp : parseNode env s = .parsed server port protocol) :
    successLatencies outcomes = (List.range 2).filterMap (fun i =>
      match outcomes i with
      | .exn _ => none
      | .resp status ms => if status = 200 ∨ status = 204 then some ms else none)
    ∧ (successLatencies outcomes ≠ [] →
        testNodeLatency env s outcomes =
          { config := s
          , latency := ((successLatencies outcomes).sum : ℚ)
                        / ((successLatencies outcomes).length : ℚ)
          , protocol := some protocol, server := server, port := some port })
    ∧ (successLatencies outcomes = [] →
        testNodeLatency env s outcomes =
          { config := s, latency := -1, error := some "Connection failed" }) := by
  refine ⟨rfl, fun hne => ?_, fun he => ?_⟩
  · cases hcase : successLatencies outcomes with
    | nil => exact absurd hcase hne
    | cons a t =>
      rw [testNodeLatency_success env s outcomes server port protocol a t hp hcase]
      rfl
  · exact testNodeLatency_noSuccess env s outcomes server port protocol hp he

theorem probe_mean_latency_witness :
    testNodeLatency sampleEnv "vless://u@h.example:443" (fun _ => .resp 200 100) =
      { config := "vless://u@h.example:443", latency := 100
      , protocol := some "vless", server := some "h.example", port := some 443 } := by
  have h := (probe_mean_latency sampleEnv "vless://u@h.example:443"
    (fun _ => .resp 200 100) (some "h.example") 443 "vless" (by decide)).2.1 (by decide)
  rw [h]
  have hl : successLatencies (fun _ => .resp 200 100) = [100, 100] := by decide
  rw [hl]
  norm_num

/-- C1 counterexample: when no attempt succeeds, the error string of the
result is the capitalized `"Connection failed"` of the source, not the
`"connection failed"` stated by the claim. -/
theorem probe_connection_failed_capitalized :
    (testNodeLatency sampleEnv "vless://u@h.example:443" (fun _ => .exn "timeout")).latency = -1
    ∧ (testNodeLatency sampleEnv "vless://u@h.example:443" (fun _ => .exn "timeout")).error
        = some "Connection failed"
    ∧ (testNodeLatency sampleEnv "vless://u@h.example:443" (fun _ => .exn "timeout")).error
        ≠ some "connection failed" := by
  have h := testNodeLatency_noSuccess sampleEnv "vless://u@h.example:443"
    (fun _ => .exn "timeout") (some "h.example") 443 "vless" (by decide) (by decide)
  rw [h]
  refine ⟨rfl, rfl, by decide⟩

end Karing

namespace Karing

/-- C2: on the probe results A with latency 150, B with latency -1 and
C with latency 3500, the filter (latency strictly between 0 and 3000)
and the ascending latency sort leave exactly the config `"A"`. -/
theorem latency_filter_scenario :
    mainOutput [ { config := "A", latency := 150 }
               , { config := "B", latency := -1 }
               , { config := "C", latency := 3500 } ] = ["A"] := by
  have h1 : filterValid [ { config := "A", latency := 150 }
                        , { config := "B", latency := -1 }
                        , { config := "C", latency := 3500 } ]
      = [ { config := "A", latency := 150 } ] := by
    simp only [filterValid, List.filter_cons, List.filter_nil,
      Bool.and_eq_true, decide_eq_true_eq]
    norm_num
  rw [mainOutput, h1, sortByLatency, List.mergeSort_singleton, List.map_cons, List.map_nil]

/-- C3 (amended): results whose latency is the unmeasured sentinel `-1`
are removed by the validity filter of `main` (which keeps only results
with `0 < latency < 3000`), so they never appear in the sorted output,
wherever they occur in the batch. -/
theorem sentinel_never_in_output (results : List ProbeResult) (r : ProbeResult)
    (h : r.latency = -1) : r ∉ sortByLatency (filterValid results) := by
  intro hmem
  rw [sortByLatency, List.mem_mergeSort] at hmem
  have hf := List.of_mem_filter hmem
  rw [Bool.and_eq_true, decide_eq_true_eq, decide_eq_true_eq, h] at hf
  exact absurd hf.1 (by norm_num)

theorem sentinel_never_in_output_witness :
    ({ config := "B", latency := -1 } : ProbeResult) ∉
      sortByLatency (filterValid
        [ { config := "B", latency := -1 }, { config := "A", latency := 150 } ]) :=
  sentinel_never_in_output _ _ rfl

/-- C3 counterexample: a batch holding the sentinel result B and the
measured result A produces the output `["A"]`; the sentinel node does
not appear at all, rather than sorting last. -/
theorem sentinel_removed_by_filter :
    mainOutput [ { config := "B", latency := -1 }, { config := "A", latency := 150 } ] = ["A"]
    ∧ "B" ∉ mainOutput
        [ { config := "B", latency := -1 }, { config := "A", latency := 150 } ] := by
  have h1 : filterValid [ { config := "B", latency := -1 }
                        , { config := "A", latency := 150 } ]
      = [ { config := "A", latency := 150 } ] := by
    simp only [filterValid, List.filter_cons, List.filter_nil,
      Bool.and_eq_true, decide_eq_true_eq]
    norm_num
  have h2 : mainOutput [ { config := "B", latency := -1 }
                       , { config := "A", latency := 150 } ] = ["A"] := by
    rw [mainOutput, h1, sortByLatency, List.mergeSort_singleton, List.map_cons, List.map_nil]
  refine ⟨h2, ?_⟩
  rw [h2]
  decide

end Karing

namespace Karing

/-- C6 (amended: the code writes the error string capitalized, as
`"Unsupported protocol"`). A descriptor whose scheme is none of
`vmess://`, `vless://`, `ss://` is answered immediately with latency
`-1` and error `"Unsupported protocol"`, and the result is the same for
any two sets of network outcomes: no request is issued for it. -/
theorem unsupported_scheme_short_circuit (env : Env) (s : String)
    (h1 : pyStartsWith s "vmess://" = false)
    (h2 : pyStartsWith s "vless://" = false)
    (h3 : pyStartsWith s "ss://" = false)
    (outcomes outcomes' : Nat → Attempt) :
    testNodeLatency env s outcomes
      = { config := s, latency := -1, error := some "Unsupported protocol" }
    ∧ testNodeLatency env s outcomes = testNodeLatency env s outcomes' := by
  have hp : parseNode env s = .unsupported := by
    simp [parseNode, h1, h2, h3]
  rw [testNodeLatency_unsupported env s outcomes hp,
    testNodeLatency_unsupported env s outcomes' hp]
  exact ⟨rfl, rfl⟩

theorem unsupported_scheme_short_circuit_witness :
    testNodeLatency sampleEnv "trojan://pw@h.example:443" (fun _ => .resp 200 50)
      = { config := "trojan://pw@h.example:443", latency := -1
        , error := some "Unsupported protocol" }
    ∧ testNodeLatency sampleEnv "trojan://pw@h.example:443" (fun _ => .resp 200 50)
      = testNodeLatency sampleEnv "trojan://pw@h.example:443" (fun _ => .exn "t") :=
  unsupported_scheme_short_circuit sampleEnv "trojan://pw@h.example:443"
    (by decide) (by decide) (by decide) (fun _ => .resp 200 50) (fun _ => .exn "t")

/-- C6 counterexample: for the unsupported scheme `trojan://` the error
string of the result is the capitalized `"Unsupported protocol"` of the
source, not the `"unsupported protocol"` stated by the claim. -/
theorem unsupported_protocol_capitalized :
    (testNodeLatency sampleEnv "trojan://pw@h.example:443" (fun _ => .resp 200 50)).error
      = some "Unsupported protocol"
    ∧ (testNodeLatency sampleEnv "trojan://pw@h.example:443" (fun _ => .resp 200 50)).error
      ≠ some "unsupported protocol" := by
  have h := testNodeLatency_unsupported sampleEnv "trojan://pw@h.example:443"
    (fun _ => .resp 200 50) (by decide)
  rw [h]
  exact ⟨rfl, by decide⟩

/-- C8 (amended): the latency of every result is either the sentinel
`-1` or a nonnegative rational; being the true-division mean of integer
millisecond measurements, it need not be an integer. -/
theorem latency_sentinel_or_nonneg (env : Env) (s : String)
    (outcomes : Nat → Attempt) :
    (testNodeLatency env s outcomes).latency = -1
    ∨ 0 ≤ (testNodeLatency env s outcomes).latency := by
  cases hp : parseNode env s with
  | unsupported => rw [testNodeLatency_unsupported env s outcomes hp]; left; rfl
  | raised e => rw [testNodeLatency_raised env s outcomes e hp]; left; rfl
  | parsed server port protocol =>
    cases hcase : successLatencies outcomes with
    | nil =>
      rw [testNodeLatency_noSuccess env s outcomes server port protocol hp hcase]
      left; rfl
    | cons a t =>
      rw [testNodeLatency_success env s outcomes server port protocol a t hp hcase]
      right
      exact meanLatency_nonneg (a :: t)

/-- C8 counterexample: with successful attempts of 100 ms and 105 ms the
reported latency is 205/2, which is not an integer (and not the
sentinel). -/
theorem latency_half_integer :
    (testNodeLatency sampleEnv "vless://u@h.example:443" unevenOutcomes).latency ≠ -1
    ∧ (testNodeLatency sampleEnv "vless://u@h.example:443" unevenOutcomes).latency = 205 / 2
    ∧ ¬ ∃ n : ℤ, (testNodeLatency sampleEnv "vless://u@h.example:443" unevenOutcomes).latency
        = (n : ℚ) := by
  have hv := testNodeLatency_success sampleEnv "vless://u@h.example:443" unevenOutcomes
    (some "h.example") 443 "vless" 100 [105] (by decide) (by decide)
  rw [hv]
  have hm : meanLatency [100, 105] = 205 / 2 := by
    norm_num [meanLatency]
  refine ⟨?_, ?_, ?_⟩
  · show meanLatency [100, 105] ≠ -1
    exact meanLatency_ne_neg_one [100, 105]
  · exact hm
  · rintro ⟨n, hn⟩
    have hn' : meanLatency [100, 105] = (n : ℚ) := hn
    rw [hm] at hn'
    have h2 : (205 : ℚ) = 2 * (n : ℚ) := by
      field_simp at hn'
      linarith
    have h3 : (205 : ℤ) = 2 * n := by exact_mod_cast h2
    omega

/-- C9: a result of `test_node_latency` carries an error key exactly
when its latency is the sentinel `-1`; success results carry no error
key. -/
theorem error_iff_unmeasured (env : Env) (s : String) (outcomes : Nat → Attempt) :
    (testNodeLatency env s outcomes).error.isSome = true
      ↔ (testNodeLatency env s outcomes).latency = -1 := by
  cases hp : parseNode env s with
  | unsupported =>
    rw [testNodeLatency_unsupported env s outcomes hp]
    simp
  | raised e =>
    rw [testNodeLatency_raised env s outcomes e hp]
    simp
  | parsed server port protocol =>
    cases hcase : successLatencies outcomes with
    | nil =>
      rw [testNodeLatency_noSuccess env s outcomes server port protocol hp hcase]
      simp
    | cons a t =>
      rw [testNodeLatency_success env s outcomes server port protocol a t hp hcase]
      simp only [Option.isSome_none, Bool.false_eq_true, false_iff]
      show meanLatency (a :: t) ≠ -1
      exact meanLatency_ne_neg_one (a :: t)

end Karing

namespace V2RaySE

/-- Every match of `findallGo` starts with the scheme pattern it was
scanned for. -/
theorem findallGo_mem_scheme (pat : List Char) :
    ∀ (fuel : Nat) (cs m : List Char), m ∈ findallGo pat fuel cs → pat <+: m := by
  intro fuel
  induction fuel with
  | zero =>
    intro cs m hm
    simp [findallGo] at hm
  | succ f ih =>
    intro cs m hm
    cases cs with
    | nil => simp [findallGo] at hm
    | cons c rest =>
      simp only [findallGo] at hm
      split at hm
      · split at hm
        · exact ih rest m hm
        · next r rs heq =>
            rcases List.mem_cons.mp hm with h | h
            · exact ⟨r :: rs, h.symm⟩
            · exact ih _ m h
      · exact ih rest m hm

/-- C5 (amended): extraction concatenates the per-scheme `re.findall`
results in the fixed pattern order vmess, vless, trojan, ss, ssr,
hysteria — matches are grouped by scheme, not interleaved in source
order; empty text and prose without scheme-prefixed substrings produce
an empty sequence; and every extracted string begins with one of the six
scheme patterns (because `ss://` occurs inside `vmess://` and
`vless://` URIs, that scheme may also match their tails, yielding more
strings than URIs). -/
theorem extraction_scheme_grouped (text : String) (m : String)
    (hm : m ∈ extractNodeLinks text) :
    (extractNodeLinks text
      = ((findall "vmess://".toList text.toList).map fun l => String.mk l)
        ++ ((findall "vless://".toList text.toList).map fun l => String.mk l)
        ++ ((findall "trojan://".toList text.toList).map fun l => String.mk l)
        ++ ((findall "ss://".toList text.toList).map fun l => String.mk l)
        ++ ((findall "ssr://".toList text.toList).map fun l => String.mk l)
        ++ ((findall "hysteria://".toList text.toList).map fun l => String.mk l))
    ∧ extractNodeLinks "" = []
    ∧ extractNodeLinks "plain prose with no URIs" = []
    ∧ ∃ p ∈ nodePatternPrefixes, p.toList <+: m.toList := by
  refine ⟨?_, by decide, by decide, ?_⟩
  · simp [extractNodeLinks, nodePatternPrefixes]
  · rw [extractNodeLinks] at hm
    rcases List.mem_flatten.mp hm with ⟨l, hl, hml⟩
    rcases List.mem_map.mp hl with ⟨p, hp, rfl⟩
    rcases List.mem_map.mp hml with ⟨ml, hmf, rfl⟩
    exact ⟨p, hp, findallGo_mem_scheme p.toList text.toList.length text.toList ml hmf⟩

theorem extraction_scheme_grouped_witness :
    "ss://u" ∈ extractNodeLinks "trojan://t vless://u"
    ∧ ∃ p ∈ nodePatternPrefixes, p.toList <+: "ss://u".toList :=
  ⟨by decide,
    (extraction_scheme_grouped "trojan://t vless://u" "ss://u" (by decide)).2.2.2⟩

/-- C5 counterexample: the text `"trojan://t vless://u"` holds two URIs,
with the trojan one first, but extraction returns three strings — the
per-scheme groups put vless before trojan, and the `ss://` pattern also
matches the tail of the vless URI. -/
theorem extraction_not_source_order :
    extractNodeLinks "trojan://t vless://u" = ["vless://u", "trojan://t", "ss://u"]
    ∧ extractNodeLinks "trojan://t vless://u" ≠ ["trojan://t", "vless://u"]
    ∧ (extractNodeLinks "trojan://t vless://u").length ≠ 2 := by
  refine ⟨by decide, by decide, by decide⟩

end V2RaySE

namespace Karing

/-- Length of the batch result list. -/
theorem testNodesBatchGo_length (env : Env) (outcomes : Nat → Nat → Attempt) :
    ∀ (configs : List String) (k : Nat),
      (testNodesBatchGo env outcomes configs k).length = configs.length := by
  intro configs
  induction configs with
  | nil => intro k; rfl
  | cons c rest ih =>
    intro k
    simp only [testNodesBatchGo, List.length_cons, ih (k + 1)]

/-- The batch result at index `i` is the per-node result of config `i`
under the network outcomes of task `k + i`. -/
theorem testNodesBatchGo_get (env : Env) (outcomes : Nat → Nat → Attempt) :
    ∀ (configs : List String) (k i : Nat),
      (testNodesBatchGo env outcomes configs k).get? i
        = (configs.get? i).map (fun c => testNodeLatency env c (outcomes (k + i))) := by
  intro configs
  induction configs with
  | nil => intro k i; simp [testNodesBatchGo]
  | cons c rest ih =>
    intro k i
    cases i with
    | zero => simp [testNodesBatchGo]
    | succ n =>
      simp only [testNodesBatchGo, List.get?_cons_succ]
      rw [ih (k + 1) n]
      have : k + 1 + n = k + (n + 1) := by omega
      rw [this]

/-- C7: `test_node_latency` is total — a parse exception becomes a
result with latency `-1` carrying the exception message — and the batch
is elementwise: the result at index `i` exists whenever config `i` does
and is computed from that config and its own network outcomes alone, so
one failing node cannot abort or change the results of the others. -/
theorem node_failure_isolated (env : Env) (configs : List String)
    (outcomes : Nat → Nat → Attempt) (i : Nat) (s : String) (e : String)
    (o : Nat → Attempt) :
    (testNodesBatch env configs outcomes).length = configs.length
    ∧ (testNodesBatch env configs outcomes).get? i
        = (configs.get? i).map (fun c => testNodeLatency env c (outcomes i))
    ∧ (parseNode env s = .raised e →
        testNodeLatency env s o = { config := s, latency := -1, error := some e }) := by
  refine ⟨testNodesBatchGo_length env outcomes configs 0, ?_,
    fun hp => testNodeLatency_raised env s o e hp⟩
  have h := testNodesBatchGo_get env outcomes configs 0 i
  simpa using h

theorem node_failure_isolated_witness :
    (testNodesBatch sampleEnv ["vmess://x", "trojan://y"] (fun _ _ => .exn "t")).length = 2
    ∧ testNodeLatency sampleEnv "vmess://x" (fun _ => .exn "t")
        = { config := "vmess://x", latency := -1
          , error := some "Invalid base64-encoded string" } := by
  have h := node_failure_isolated sampleEnv ["vmess://x", "trojan://y"]
    (fun _ _ => .exn "t") 0 "vmess://x" "Invalid base64-encoded string" (fun _ => .exn "t")
  exact ⟨h.1, h.2.2 (by decide)⟩

/-- If a string starts (in the sense of `str.startswith`) with a pattern
whose first character is `c`, the string itself starts with `c`. -/
theorem pyStartsWith_head {s p : String} {c : Char} {cs : List Char}
    (hp : p.toList = c :: cs) (h : pyStartsWith s p = true) :
    ∃ rest, s.toList = c :: rest := by
  unfold pyStartsWith at h
  rw [hp] at h
  cases hs : s.toList with
  | nil => rw [hs] at h; simp [List.isPrefixOf] at h
  | cons b bs =>
    rw [hs] at h
    simp only [List.isPrefixOf, Bool.and_eq_true, beq_iff_eq] at h
    exact ⟨bs, by rw [h.1]⟩

/-- A descriptor with scheme `ss://` does not start with `vmess://`. -/
theorem ss_not_vmess {s : String} (h : pyStartsWith s "ss://" = true) :
    pyStartsWith s "vmess://" = false := by
  obtain ⟨rest, hrest⟩ := @pyStartsWith_head s "ss://" 's' "s://".toList (by decide) h
  by_contra hc
  rw [Bool.not_eq_false] at hc
  obtain ⟨rest', hrest'⟩ := @pyStartsWith_head s "vmess://" 'v' "mess://".toList (by decide) hc
  rw [hrest] at hrest'
  injection hrest' with h1 _
  exact absurd h1 (by decide)

/-- A descriptor with scheme `ss://` does not start with `vless://`. -/
theorem ss_not_vless {s : String} (h : pyStartsWith s "ss://" = true) :
    pyStartsWith s "vless://" = false := by
  obtain ⟨rest, hrest⟩ := @pyStartsWith_head s "ss://" 's' "s://".toList (by decide) h
  by_contra hc
  rw [Bool.not_eq_false] at hc
  obtain ⟨rest', hrest'⟩ := @pyStartsWith_head s "vless://" 'v' "less://".toList (by decide) hc
  rw [hrest] at hrest'
  injection hrest' with h1 _
  exact absurd h1 (by decide)

end Karing

namespace Karing

/-- C10: an `ss://` descriptor without an `@` separator, or whose text
after the final `:` is rejected by `int()`, makes the ad-hoc parse raise
internally, so the node is never probed (the result is the same for any
two sets of network outcomes) and is reported with latency `-1` and the
exception message as the error. -/
theorem ss_malformed_not_probed (env : Env) (s : String)
    (outcomes outcomes' : Nat → Attempt)
    (hss : pyStartsWith s "ss://" = true)
    (hbad : (pySplit s "@").length < 2
            ∨ (pyInt (((pySplit s ":").getLast?).getD "")).toOption = none) :
    ∃ e, parseNode env s = .raised e
      ∧ testNodeLatency env s outcomes = { config := s, latency := -1, error := some e }
      ∧ testNodeLatency env s outcomes = testNodeLatency env s outcomes' := by
  have h1 := ss_not_vmess hss
  have h2 := ss_not_vless hss
  have hraised : ∃ e, parseNode env s = .raised e := by
    simp only [parseNode, h1, h2, hss, Bool.false_eq_true, if_false, if_true]
    cases hb : env.b64decode ((pySplit (pySlice s 5) "@").headD "") with
    | error e => exact ⟨e, rfl⟩
    | ok d =>
      cases hg : (pySplit s "@").get? 1 with
      | none => exact ⟨"list index out of range", rfl⟩
      | some afterAt =>
        have hlen : 2 ≤ (pySplit s "@").length := by
          obtain ⟨hlt, _⟩ := List.get?_eq_some.mp hg
          omega
        rcases hbad with hb2 | hb2
        · omega
        · cases hi : pyInt (((pySplit s ":").getLast?).getD "") with
          | error e => exact ⟨e, rfl⟩
          | ok n =>
            rw [hi] at hb2
            simp [Except.toOption] at hb2
  obtain ⟨e, he⟩ := hraised
  refine ⟨e, he, testNodeLatency_raised env s outcomes e he, ?_⟩
  rw [testNodeLatency_raised env s outcomes e he,
    testNodeLatency_raised env s outcomes' e he]

theorem ss_malformed_not_probed_witness :
    pyStartsWith "ss://YWJjOmQ=@h.example:8080#name" "ss://" = true
    ∧ (testNodeLatency sampleEnv "ss://YWJjOmQ=@h.example:8080#name"
        (fun _ => .resp 200 50)).latency = -1
    ∧ (testNodeLatency sampleEnv "ss://YWJjOmQ=@h.example:8080#name"
        (fun _ => .resp 200 50)).error.isSome = true
    ∧ testNodeLatency sampleEnv "ss://YWJjOmQ=@h.example:8080#name" (fun _ => .resp 200 50)
        = testNodeLatency sampleEnv "ss://YWJjOmQ=@h.example:8080#name" (fun _ => .exn "t") := by
  obtain ⟨e, _, h2, h3⟩ := ss_malformed_not_probed sampleEnv "ss://YWJjOmQ=@h.example:8080#name"
    (fun _ => .resp 200 50) (fun _ => .exn "t") (by decide) (Or.inr (by decide))
  rw [h2] at h3 ⊢
  exact ⟨by decide, rfl, rfl, h3⟩

end Karing

namespace Fetcher

/-- C4: with `retryCount = 3` and inter-attempt delays of at least one
second, an always-failing transport sees exactly 3 attempts and then a
single `NetworkError`; a transport failing twice and then succeeding
sees exactly 3 attempts, the successful response is returned, and the
two inter-attempt delays are each at least one second. -/
theorem retry_bound (delay : Nat → Nat) (hd : ∀ k, 1 ≤ delay k)
    (t₁ t₂ : Nat → TransportResult) (msgs : Nat → String)
    (h₁ : ∀ k, t₁ k = .failure (msgs k))
    (m₀ m₁ : String) (status : Nat) (body : String)
    (h₂₀ : t₂ 0 = .failure m₀) (h₂₁ : t₂ 1 = .failure m₁)
    (h₂₂ : t₂ 2 = .success status body) :
    ((fetchGet 3 delay t₁).attempts = 3
      ∧ (fetchGet 3 delay t₁).outcome = .error ("NetworkError: " ++ msgs 2))
    ∧ ((fetchGet 3 delay t₂).attempts = 3
      ∧ (fetchGet 3 delay t₂).outcome = .ok (status, body)
      ∧ (fetchGet 3 delay t₂).delays.length = 2
      ∧ ∀ d ∈ (fetchGet 3 delay t₂).delays, 1 ≤ d) := by
  have e₁ : fetchGet 3 delay t₁ =
      { attempts := 3, delays := [delay 0, delay 1]
      , outcome := .error ("NetworkError: " ++ msgs 2) } := by
    simp only [fetchGet, fetchGo, h₁ 0, h₁ 1, h₁ 2]
  have e₂ : fetchGet 3 delay t₂ =
      { attempts := 3, delays := [delay 0, delay 1], outcome := .ok (status, body) } := by
    simp only [fetchGet, fetchGo, h₂₀, h₂₁, h₂₂]
  rw [e₁, e₂]
  refine ⟨⟨rfl, rfl⟩, rfl, rfl, rfl, ?_⟩
  intro d hdm
  rcases List.mem_cons.mp hdm with h | h
  · rw [h]; exact hd 0
  · rcases List.mem_cons.mp h with h' | h'
    · rw [h']; exact hd 1
    · simp at h'

theorem retry_bound_witness :
    ((fetchGet 3 (fun _ => 1) (fun _ => .failure "timeout")).attempts = 3
      ∧ (fetchGet 3 (fun _ => 1) (fun _ => .failure "timeout")).outcome
          = .error ("NetworkError: " ++ "timeout"))
    ∧ ((fetchGet 3 (fun _ => 1)
          (fun k => if k < 2 then .failure "timeout" else .success 200 "ok")).attempts = 3
      ∧ (fetchGet 3 (fun _ => 1)
          (fun k => if k < 2 then .failure "timeout" else .success 200 "ok")).outcome
          = .ok (200, "ok")
      ∧ (fetchGet 3 (fun _ => 1)
          (fun k => if k < 2 then .failure "timeout" else .success 200 "ok")).delays.length = 2
      ∧ ∀ d ∈ (fetchGet 3 (fun _ => 1)
          (fun k => if k < 2 then .failure "timeout" else .success 200 "ok")).delays, 1 ≤ d) :=
  retry_bound (fun _ => 1) (fun _ => Nat.le_refl 1) (fun _ => .failure "timeout")
    (fun k => if k < 2 then .failure "timeout" else .success 200 "ok")
    (fun _ => "timeout") (fun _ => rfl) "timeout" "timeout" 200 "ok" rfl rfl rfl

end Fetcher
